import Mathlib

/-!
# Payment handlers of `functions/index.js`

A shallow embedding of the four HTTP handlers `createBill`, `paymentCallback`,
`getPaymentStatus` and `getCustomerPayments`, followed by the properties of the payment
record lifecycle that hold of them.

The handlers are asynchronous JavaScript functions over three outside services: the payment
gateway (reached with `axios.post`), the document store (`db.collection("payments")`) and the
clock (`new Date()`, `Date.now()`).  Here a handler is a pure function of the request, the
store contents before the call and the answers of the outside services, and it returns the
HTTP response, the store contents after the call and the list of requests it sent to the
gateway.  Logging has no effect on any of these and is left out.

The calls to the store client sit inside the `try` of each handler.  What the client
refuses before anything is sent to the store (a key that is no document path, an
`undefined` field, a Date that is no timestamp) is an error thrown there, and it reaches
the `catch` like any other; the store itself is taken to answer every call it receives.
-/

namespace Wms

/-! ## JavaScript values -/

/-- A JavaScript number: a finite double, held as the rational number it denotes (negative
zero is not told apart from zero), or one of the three non-finite values. -/
inductive JsNum where
  | finite (q : ℚ)
  | nan
  | posInf
  | negInf
  deriving DecidableEq

/-- A value found in a field of a parsed request or response body; `undefined` stands for a
field that is not there. -/
inductive JsValue where
  | undefined
  | null
  | bool (b : Bool)
  | num (n : JsNum)
  | str (s : String)
  deriving DecidableEq

/-- JavaScript truthiness (`ToBoolean`): what `!x` and `x || y` test. -/
def truthy : JsValue → Bool
  | .undefined => false
  | .null => false
  | .bool b => b
  | .num (.finite q) => decide (q ≠ 0)
  | .num .nan => false
  | .num .posInf => true
  | .num .negInf => true
  | .str s => decide (s ≠ "")

/-- The JavaScript expression `a || b`. -/
def jsOr (a b : JsValue) : JsValue :=
  if truthy a then a else b

/-- The integer nearest to `n / d`, ties going to the even one (`0 < d`). -/
def roundHalfEven (n d : Nat) : Nat :=
  let q := n / d
  let r := n % d
  if 2 * r < d then q
  else if d < 2 * r then q + 1
  else if q % 2 = 0 then q else q + 1

/-- The number of halvings that take `n` to zero, counted with at most `fuel` steps. -/
def bitLengthAux : Nat → Nat → Nat
  | 0, _ => 0
  | fuel + 1, n => if n = 0 then 0 else bitLengthAux fuel (n / 2) + 1

/-- The number of binary digits of `n`. -/
def bitLength (n : Nat) : Nat := bitLengthAux n n

/-- The exponent `e` with `2 ^ e ≤ n / d < 2 ^ (e + 1)`, for `0 < n` and `0 < d`. -/
def binaryExponent (n d : Nat) : Int :=
  let e0 : Int := (bitLength n : Int) - (bitLength d : Int)
  if n * 2 ^ (-e0).toNat < d * 2 ^ e0.toNat then e0 - 1 else e0

/-- IEEE 754 binary64 rounding of an exact result, round to nearest, ties to even:
53 significant bits, no unit in the last place below `2 ^ (-1074)`, and an infinity when the
rounded magnitude reaches `2 ^ 1024`. -/
def roundToDouble (x : ℚ) : JsNum :=
  if x = 0 then .finite 0
  else
    let n := x.num.natAbs
    let d := x.den
    let u : Int := max (binaryExponent n d - 52) (-1074)
    let m := roundHalfEven (n * 2 ^ (-u).toNat) (d * 2 ^ u.toNat)
    if 2 ^ 1024 ≤ m * 2 ^ u.toNat then
      (if 0 < x then .posInf else .negInf)
    else
      let mag : ℚ := mkRat (Int.ofNat (m * 2 ^ u.toNat)) (2 ^ (-u).toNat)
      .finite (if 0 < x then mag else -mag)

/-- A rational number is a double when binary64 rounding leaves it as it is. -/
def IsDouble (x : ℚ) : Prop := roundToDouble x = .finite x

instance (x : ℚ) : Decidable (IsDouble x) := by
  unfold IsDouble; infer_instance

/-- The sign of a number that is not NaN, as `-1`, `0` or `1`. -/
def JsNum.sgn : JsNum → Int
  | .finite q => if 0 < q then 1 else if q < 0 then -1 else 0
  | .nan => 0
  | .posInf => 1
  | .negInf => -1

/-- The JavaScript product `a * b` of two numbers. -/
def jsMul : JsNum → JsNum → JsNum
  | .finite a, .finite b => roundToDouble (a * b)
  | .nan, _ => .nan
  | _, .nan => .nan
  | a, b =>
    if a.sgn * b.sgn = 0 then .nan
    else if 0 < a.sgn * b.sgn then .posInf else .negInf

/-- `Math.round`: the nearest integer, a tie going towards positive infinity; the three
non-finite values are returned as they are. -/
def mathRound : JsNum → JsNum
  | .finite q => .finite (⌊q + 1 / 2⌋ : ℤ)
  | n => n

/-- `ToNumber`, the conversion the operator `*` applies to an operand.  The conversion of a
string is the runtime's `StringToNumber`, taken as `stringToNumber`. -/
def toNumber (stringToNumber : String → JsNum) : JsValue → JsNum
  | .undefined => .nan
  | .null => .finite 0
  | .bool b => .finite (if b then 1 else 0)
  | .num n => n
  | .str s => stringToNumber s

deriving instance DecidableEq for Except

/-- The Date object `new Date(v)`: its time value in milliseconds, `none` for an Invalid
Date.  A string goes through the runtime's `Date.parse`, taken as `dateParse`; any other
value is converted to a number, which is a time value when it is finite and at most
8.64e15 in magnitude, its fraction dropped. -/
def newDate (dateParse : String → Option Int) : JsValue → Option Int
  | .undefined => none
  | .null => some 0
  | .bool b => some (if b then 1 else 0)
  | .num (.finite q) =>
    if |q| ≤ 8640000000000000 then some (if 0 ≤ q then ⌊q⌋ else ⌈q⌉) else none
  | .num _ => none
  | .str s => dateParse s

/-! ## The payment record and the document store -/

/-- The `paidAt` field of a stored record: not in the document, `null`, or a timestamp,
held as the time value in milliseconds of the Date it was written from. -/
inductive PaidAt where
  | absent
  | null
  | date (time : Int)
  deriving DecidableEq

/-- A document of the `payments` collection.  `createdAt` and `updatedAt` are the clock
readings of `new Date()`, in milliseconds; `transactionId` is `none` while the document has
no such field. -/
structure PaymentRecord where
  billId : JsValue
  orderId : JsValue
  customerName : JsValue
  customerEmail : JsValue
  customerPhone : JsValue
  amount : JsValue
  description : JsValue
  status : String
  billUrl : JsValue
  createdAt : Int
  updatedAt : Int
  transactionId : Option JsValue
  paidAt : PaidAt
  deriving DecidableEq

/-- The place of a document below the `payments` collection: the segments of its path,
one segment for a document of the collection itself. -/
abbrev DocPath := List String

/-- The segments of a path: its pieces between slashes, the empty ones dropped.  `cur` is
the piece being read, last character first. -/
def splitSlash : List Char → List Char → List (List Char)
  | cur, [] => if cur = [] then [] else [cur.reverse]
  | cur, c :: cs =>
    if c = '/' then
      (if cur = [] then splitSlash [] cs else cur.reverse :: splitSlash [] cs)
    else splitSlash (c :: cur) cs

/-- Whether two slashes stand next to each other. -/
def hasDoubleSlash : List Char → Bool
  | [] => false
  | c :: cs => (decide (c = '/') && decide (cs.head? = some '/')) || hasDoubleSlash cs

/-- The text of the error `doc(key)` throws for a key that is no string or is empty. -/
def notResourcePath : String :=
  "Value for argument \"documentPath\" is not a valid resource path. " ++
    "Path must be a non-empty string."

/-- The text of the error `doc(key)` throws for a key with two slashes in a row. -/
def doubleSlashPath : String :=
  "Value for argument \"documentPath\" is not a valid resource path. " ++
    "Paths must not contain //."

/-- The text of the error `doc(key)` throws for a key that names no document. -/
def notDocumentPath (key : String) : String :=
  "Value for argument \"documentPath\" must point to a document, but was \"" ++ key ++
    "\". Your path does not contain an even number of components."

/-- The document reference `db.collection("payments").doc(key)`: the path of the document
below `payments`, or the text of the error the store client throws.  The client takes a
non-empty string without `//`, splits it at the slashes, and wants the whole path,
`payments` included, to have an even number of segments. -/
def docRef : JsValue → Except String DocPath
  | .str s =>
    if s = "" then .error notResourcePath
    else if hasDoubleSlash s.data then .error doubleSlashPath
    else
      let segments := (splitSlash [] s.data).map String.mk
      if (1 + segments.length) % 2 = 0 then .ok segments
      else .error (notDocumentPath s)
  | _ => .error notResourcePath

/-- The text of the error `set` throws for a field that is `undefined`. -/
def undefinedField (field : String) : String :=
  "Value for argument \"data\" is not a valid Firestore document. " ++
    "Cannot use \"undefined\" as a Firestore value (found in field \"" ++ field ++
    "\"). If you want to ignore undefined values, enable `ignoreUndefinedProperties`."

/-- The error `set` throws for the first `undefined` among the named fields, if any. -/
def firstUndefined : List (String × JsValue) → Option String
  | [] => none
  | (field, v) :: rest =>
    if v = .undefined then some (undefinedField field) else firstUndefined rest

/-- The error `set(r)` throws before writing: that of the first `undefined` field of `r`,
in the order the fields are written in the source. -/
def setError (r : PaymentRecord) : Option String :=
  firstUndefined
    [("billId", r.billId), ("orderId", r.orderId), ("customerName", r.customerName),
      ("customerEmail", r.customerEmail), ("customerPhone", r.customerPhone),
      ("amount", r.amount), ("description", r.description), ("billUrl", r.billUrl)]

/-- The timestamp the store client makes of a Date when it encodes a field: the time value
of the Date, or the text of the error thrown, for an Invalid Date and for a Date whose
seconds fall outside the years 1 to 9999. -/
def encodeDate : Option Int → Except String Int
  | none => .error "Value for argument \"seconds\" is not a valid integer."
  | some time =>
    if -62135596800 ≤ time.fdiv 1000 ∧ time.fdiv 1000 ≤ 253402300799 then .ok time
    else .error ("Value for argument \"seconds\" must be within " ++
      "[-62135596800, 253402300799] inclusive, but was: " ++ toString (time.fdiv 1000))

/-- The documents below the `payments` collection, each with its path.  The store is taken
to answer every call that reaches it; the clock readings written into a document are taken
to be times the client encodes. -/
abbrev Store := List (DocPath × PaymentRecord)

/-- The document `get()` returns for a reference, `none` when `exists` is false. -/
def Store.get (s : Store) (key : DocPath) : Option PaymentRecord :=
  (s.find? (fun e => decide (e.1 = key))).map Prod.snd

/-- The store after `set(r)` on a reference: the document there is `r`, whatever was
there. -/
def Store.set (s : Store) (key : DocPath) (r : PaymentRecord) : Store :=
  (key, r) :: s.filter (fun e => decide (e.1 ≠ key))

/-- The store after `update(...)` on a reference, `f` writing the given fields into the
document. -/
def Store.update (s : Store) (key : DocPath) (f : PaymentRecord → PaymentRecord) : Store :=
  s.map (fun e => if e.1 = key then (e.1, f e.2) else e)

/-- The documents of
`where("customerEmail", "==", email).orderBy("createdAt", "desc").limit(limit).get()` on
the collection: documents of `payments` itself, not of a collection further down. -/
def Store.query (s : Store) (email : JsValue) (limit : Nat) : List (DocPath × PaymentRecord) :=
  ((s.filter (fun e => decide (e.1.length = 1) && decide (e.2.customerEmail = email))).insertionSort
    (fun a b => b.2.createdAt ≤ a.2.createdAt)).take limit

/-! ## Requests and responses -/

/-- An HTTP request with its parsed body. -/
structure Request (β : Type) where
  method : String
  body : β

/-- The body a handler sends: the text of `send(...)` or one of the objects of `json(...)`. -/
inductive Body where
  /-- The text given to `send`. -/
  | text (s : String)
  /-- The object `{success: true, billId, billUrl, message}`. -/
  | billCreated (billId billUrl : JsValue) (message : String)
  /-- The object `{success: true, message}`. -/
  | ok (message : String)
  /-- The object `{success: true, payment}`. -/
  | payment (p : PaymentRecord)
  /-- The object `{success: true, payments}`, an entry `(path, data)` for `{id, ...data}`,
  the id being the one segment of the path. -/
  | payments (ps : List (DocPath × PaymentRecord))
  /-- The object `{success: false, error}`. -/
  | failure (error : String)
  deriving DecidableEq

/-- An HTTP response: the status code, the headers set with `res.set`, and the body. -/
structure Response where
  status : Nat
  headers : List (String × String)
  body : Body
  deriving DecidableEq

/-- What a handler did: its response, the store after it, and the bill requests it posted to
the gateway. -/
structure Outcome (γ : Type) where
  response : Response
  store : Store
  gatewayCalls : List γ

/-- The response to a CORS preflight request (`OPTIONS`). -/
def preflight : Response :=
  { status := 204
    headers := [("Access-Control-Allow-Origin", "*"),
                ("Access-Control-Allow-Methods", "GET, POST, OPTIONS"),
                ("Access-Control-Allow-Headers", "Content-Type")]
    body := .text "" }

/-- The response to a request that is neither `OPTIONS` nor `POST`. -/
def methodNotAllowed : Response :=
  { status := 405, headers := [], body := .text "Method Not Allowed" }

/-- The response of a `catch` block: status 500 and `{success: false, error}`, the error text
being the handler's prefix followed by the message of the error caught. -/
def caught (pre message : String) : Response :=
  { status := 500
    headers := [("Access-Control-Allow-Origin", "*")]
    body := .failure (pre ++ message) }

/-- The response `res.status(200).json(body)` of a handler that ran to its end. -/
def success (body : Body) : Response :=
  { status := 200, headers := [("Access-Control-Allow-Origin", "*")], body := body }

/-! ## `createBill` -/

def BILLPLZ_COLLECTION_ID : String := "xsu0hjux"

def BILLPLZ_CALLBACK_URL : String :=
  "https://us-central1-wms-appi1.cloudfunctions.net/paymentCallback"

/-- The body of a `createBill` request. -/
structure CreateBody where
  amount : JsValue
  description : JsValue
  customerName : JsValue
  customerEmail : JsValue
  customerPhone : JsValue
  orderId : JsValue

/-- The bill request `billData` posted to the gateway.  `due_at` is the time value, in
milliseconds, of the Date whose ISO string the source sends. -/
structure BillData where
  collection_id : String
  email : JsValue
  mobile : JsValue
  name : JsValue
  amount : JsNum
  description : JsValue
  callback_url : String
  redirect_url : String
  due_at : Int
  reference_1_label : String
  reference_1 : JsValue
  reference_2_label : String
  reference_2 : JsValue
  deriving DecidableEq

/-- The bill `response.data` of the gateway; a field the answer lacks is `undefined`. -/
structure Bill where
  id : JsValue
  url : JsValue
  deriving DecidableEq

/-- What `createBill` takes from outside: the runtime's conversion of a string to a number,
the gateway's answer to a bill request (the bill, or the message of the error `axios.post`
throws), and the clock readings of `Date.now()` and of the two `new Date()`. -/
structure CreateEnv where
  stringToNumber : String → JsNum
  gateway : BillData → Except String Bill
  dateNow : Int
  createdAt : Int
  updatedAt : Int

def missingRequiredFields : String :=
  "Missing required fields: amount, description, customerName, " ++ "customerEmail"

/-- The object `billData` of `createBill`. -/
def billDataOf (env : CreateEnv) (b : CreateBody) : BillData :=
  { collection_id := BILLPLZ_COLLECTION_ID
    email := b.customerEmail
    mobile := jsOr b.customerPhone (.str "")
    name := b.customerName
    amount := mathRound (jsMul (toNumber env.stringToNumber b.amount) (.finite 100))
    description := b.description
    callback_url := BILLPLZ_CALLBACK_URL
    redirect_url := "https://your-app.com/payment-success"
    due_at := env.dateNow + 7 * 24 * 60 * 60 * 1000
    reference_1_label := "Order ID"
    reference_1 := jsOr b.orderId (.str "")
    reference_2_label := "Customer"
    reference_2 := b.customerName }

/-- The object `paymentRecord` of `createBill`. -/
def paymentRecordOf (env : CreateEnv) (b : CreateBody) (bill : Bill) : PaymentRecord :=
  { billId := bill.id
    orderId := jsOr b.orderId (.str "")
    customerName := b.customerName
    customerEmail := b.customerEmail
    customerPhone := jsOr b.customerPhone (.str "")
    amount := b.amount
    description := b.description
    status := "pending"
    billUrl := bill.url
    createdAt := env.createdAt
    updatedAt := env.updatedAt
    transactionId := none
    paidAt := .absent }

/-- The statement `await db.collection("payments").doc(bill.id).set(paymentRecord)` and what
follows it in `createBill`: the error of `doc` or of `set` goes to the `catch`, and the
record is stored and the bill reported when neither throws. -/
def storeBill (store : Store) (bill : Bill) (r : PaymentRecord) (billData : BillData) :
    Outcome BillData :=
  match docRef bill.id with
  | .error message => ⟨caught "Failed to create bill: " message, store, [billData]⟩
  | .ok path =>
    match setError r with
    | some message => ⟨caught "Failed to create bill: " message, store, [billData]⟩
    | none =>
      ⟨success (.billCreated bill.id bill.url "Bill created successfully"),
        store.set path r, [billData]⟩

/-- The handler `createBill`. -/
def createBill (env : CreateEnv) (store : Store) (req : Request CreateBody) :
    Outcome BillData :=
  if req.method = "OPTIONS" then ⟨preflight, store, []⟩
  else if req.method ≠ "POST" then ⟨methodNotAllowed, store, []⟩
  else
    let b := req.body
    if !truthy b.amount || !truthy b.description || !truthy b.customerName
        || !truthy b.customerEmail then
      ⟨caught "Failed to create bill: " missingRequiredFields, store, []⟩
    else
      let billData := billDataOf env b
      match env.gateway billData with
      | .error message => ⟨caught "Failed to create bill: " message, store, [billData]⟩
      | .ok bill => storeBill store bill (paymentRecordOf env b bill) billData

/-! ## `paymentCallback` -/

/-- The body of a `paymentCallback` request. -/
structure CallbackBody where
  billplzid : JsValue
  billplzpaid_at : JsValue
  billplztransaction_id : JsValue
  billplztransaction_status : JsValue

/-- The value of `isPaid`: `billplzTransactionStatus === "completed"`. -/
def isPaid (b : CallbackBody) : Bool :=
  decide (b.billplztransaction_status = .str "completed")

/-- The `paidAt` that `paymentRef.update({...})` encodes: the timestamp of
`new Date(billplzPaidAt)` when `isPaid`, `null` otherwise; or the text of the error the
client throws for a Date it cannot encode. -/
def paidAtOf (dateParse : String → Option Int) (b : CallbackBody) : Except String PaidAt :=
  if isPaid b then
    match encodeDate (newDate dateParse b.billplzpaid_at) with
    | .error message => .error message
    | .ok time => .ok (.date time)
  else .ok .null

/-- The fields `paymentRef.update({...})` writes, `now` being the reading of `new Date()` and
`paidAt` the encoded `paidAt`. -/
def applyCallback (now : Int) (b : CallbackBody) (paidAt : PaidAt) (r : PaymentRecord) :
    PaymentRecord :=
  { r with
    status := if isPaid b then "paid" else "failed"
    transactionId := some (jsOr b.billplztransaction_id (.str ""))
    paidAt := paidAt
    updatedAt := now }

/-- The handler `paymentCallback`; `dateParse` is the runtime's `Date.parse` and `now` the
clock reading of `new Date()` for `updatedAt`. -/
def paymentCallback (dateParse : String → Option Int) (now : Int) (store : Store)
    (req : Request CallbackBody) : Outcome BillData :=
  if req.method = "OPTIONS" then ⟨preflight, store, []⟩
  else if req.method ≠ "POST" then ⟨methodNotAllowed, store, []⟩
  else
    let b := req.body
    if !truthy b.billplzid then
      ⟨caught "Payment callback failed: " "Missing billplzid", store, []⟩
    else
      match docRef b.billplzid with
      | .error message => ⟨caught "Payment callback failed: " message, store, []⟩
      | .ok path =>
        match store.get path with
        | none => ⟨caught "Payment callback failed: " "Payment record not found", store, []⟩
        | some _ =>
          match paidAtOf dateParse b with
          | .error message => ⟨caught "Payment callback failed: " message, store, []⟩
          | .ok paidAt =>
            ⟨success (.ok "Payment callback processed successfully"),
              store.update path (applyCallback now b paidAt), []⟩

/-! ## `getPaymentStatus` and `getCustomerPayments` -/

/-- The body of a `getPaymentStatus` request. -/
structure StatusBody where
  billId : JsValue

/-- The handler `getPaymentStatus`. -/
def getPaymentStatus (store : Store) (req : Request StatusBody) : Outcome BillData :=
  if req.method = "OPTIONS" then ⟨preflight, store, []⟩
  else if req.method ≠ "POST" then ⟨methodNotAllowed, store, []⟩
  else
    if !truthy req.body.billId then
      ⟨caught "Failed to get payment status: " "Missing billId", store, []⟩
    else
      match docRef req.body.billId with
      | .error message => ⟨caught "Failed to get payment status: " message, store, []⟩
      | .ok path =>
        match store.get path with
        | none =>
          ⟨caught "Failed to get payment status: " "Payment record not found", store, []⟩
        | some paymentData => ⟨success (.payment paymentData), store, []⟩

/-- The body of a `getCustomerPayments` request; `limit` is `none` when the field is not
there, and a count otherwise. -/
structure HistoryBody where
  customerEmail : JsValue
  limit : Option Nat

/-- The handler `getCustomerPayments`. -/
def getCustomerPayments (store : Store) (req : Request HistoryBody) : Outcome BillData :=
  if req.method = "OPTIONS" then ⟨preflight, store, []⟩
  else if req.method ≠ "POST" then ⟨methodNotAllowed, store, []⟩
  else
    let limit := req.body.limit.getD 10
    if !truthy req.body.customerEmail then
      ⟨caught "Failed to get customer payments: " "Missing customerEmail", store, []⟩
    else
      ⟨success (.payments (store.query req.body.customerEmail limit)), store, []⟩

/-- A record with its `updatedAt` field blanked, to compare records in every other field. -/
def withoutUpdatedAt (r : PaymentRecord) : PaymentRecord := { r with updatedAt := 0 }

/-! ## Sample requests and services -/

/-- A `POST` request with the given body. -/
def postOf {β : Type} (b : β) : Request β := { method := "POST", body := b }

/-- The create request of the specification's example. -/
def janeBody : CreateBody :=
  { amount := .num (.finite 50)
    description := .str "Oil change"
    customerName := .str "Jane Doe"
    customerEmail := .str "jane@example.com"
    customerPhone := .undefined
    orderId := .undefined }

/-- The bill of the specification's example. -/
def bill123 : Bill := { id := .str "bill_123", url := .str "https://pay/bill_123" }

/-- A bill whose id has a slash in it. -/
def slashBill : Bill := { id := .str "bill/123", url := .str "https://pay/bill/123" }

/-- Services in which the gateway answers every bill request with `bill123`. -/
def answeringEnv : CreateEnv :=
  { stringToNumber := fun _ => .nan
    gateway := fun _ => .ok bill123
    dateNow := 1000
    createdAt := 1001
    updatedAt := 1002 }

/-- Services in which every bill request to the gateway fails. -/
def failingEnv : CreateEnv :=
  { answeringEnv with gateway := fun _ => .error "Request failed with status code 422" }

/-- Services in which the gateway answers every bill request with `slashBill`. -/
def slashEnv : CreateEnv :=
  { answeringEnv with gateway := fun _ => .ok slashBill }

/-- A bill whose id is the number 123. -/
def numericBill : Bill := { id := .num (.finite 123), url := .str "https://pay/123" }

/-- Services in which the gateway answers every bill request with `numericBill`. -/
def numericEnv : CreateEnv :=
  { answeringEnv with gateway := fun _ => .ok numericBill }

/-- A `Date.parse` that reads the one date string of the specification's example. -/
def sampleDateParse (s : String) : Option Int :=
  if s = "2024-01-01T10:00:00Z" then some 1704103200000 else none

/-- The callback of the specification's example: bill `bill_123` completed, no transaction
id in the payload. -/
def completedCallback : CallbackBody :=
  { billplzid := .str "bill_123"
    billplzpaid_at := .str "2024-01-01T10:00:00Z"
    billplztransaction_id := .undefined
    billplztransaction_status := .str "completed" }

/-- A completed callback for bill `bill_123` that carries no `billplzpaid_at`. -/
def undatedCallback : CallbackBody :=
  { completedCallback with billplzpaid_at := .undefined }

/-- A callback for bill `bill_123` with a transaction status other than `"completed"`. -/
def failedCallback : CallbackBody :=
  { billplzid := .str "bill_123"
    billplzpaid_at := .undefined
    billplztransaction_id := .str "txn_9"
    billplztransaction_status := .str "failed" }

/-- A callback whose `billplzid` is the number 123. -/
def numericIdCallback : CallbackBody :=
  { completedCallback with billplzid := .num (.finite 123) }

/-- The store after `janeBody` was created against `answeringEnv` in an empty store. -/
def janeStore : Store := (createBill answeringEnv [] (postOf janeBody)).store

/-- The store after the example callback was applied to `janeStore`. -/
def paidStore : Store :=
  (paymentCallback sampleDateParse 2000 janeStore (postOf completedCallback)).store

/-- A create body in which every field is missing. -/
def emptyCreateBody : CreateBody :=
  { amount := .undefined, description := .undefined, customerName := .undefined,
    customerEmail := .undefined, customerPhone := .undefined, orderId := .undefined }

/-- The example create body with an amount of the double nearest to 1.045. -/
def halfCentBody : CreateBody :=
  { janeBody with amount := .num (.finite (588282701325271 / 562949953421312)) }

/-- A second record of the example customer, created later than the first. -/
def laterRecord : PaymentRecord :=
  { paymentRecordOf answeringEnv janeBody bill123 with
    billId := .str "bill_456", createdAt := 5000, updatedAt := 5000 }

/-- A store with two records of the example customer. -/
def twoRecordStore : Store := janeStore ++ [(["bill_456"], laterRecord)]

/-- A history request for the example customer with no `limit` field. -/
def janeHistory : HistoryBody := { customerEmail := .str "jane@example.com", limit := none }

/-! ## Lemmas on binary64 rounding -/

theorem bitLengthAux_spec : ∀ (fuel n : Nat), n ≤ fuel →
    n < 2 ^ bitLengthAux fuel n ∧ (0 < n → 2 ^ (bitLengthAux fuel n - 1) ≤ n) := by
  intro fuel
  induction fuel with
  | zero =>
    intro n hn
    have : n = 0 := by omega
    subst this
    simp [bitLengthAux]
  | succ fuel ih =>
    intro n hn
    by_cases h0 : n = 0
    · subst h0
      simp [bitLengthAux]
    · have hstep : bitLengthAux (fuel + 1) n = bitLengthAux fuel (n / 2) + 1 := by
        simp [bitLengthAux, h0]
      have hle : n / 2 ≤ fuel := by omega
      obtain ⟨h1, h2⟩ := ih (n / 2) hle
      rw [hstep]
      constructor
      · rw [pow_succ]; omega
      · intro _
        rw [Nat.add_sub_cancel]
        by_cases hz : n / 2 = 0
        · have hk : bitLengthAux fuel (n / 2) = 0 := by
            rw [hz]; cases fuel <;> simp [bitLengthAux]
          rw [hk]; simp; omega
        · have h3 := h2 (Nat.pos_of_ne_zero hz)
          have hk : 1 ≤ bitLengthAux fuel (n / 2) := by
            by_contra hc
            have : bitLengthAux fuel (n / 2) = 0 := by omega
            rw [this] at h1
            simp at h1
            exact hz h1
          have : 2 ^ bitLengthAux fuel (n / 2) = 2 * 2 ^ (bitLengthAux fuel (n / 2) - 1) := by
            conv_lhs => rw [← Nat.sub_add_cancel hk]
            rw [pow_succ]; ring
          omega

/-- The binary digits of a positive number: `2 ^ (bitLength n - 1) ≤ n < 2 ^ bitLength n`. -/
theorem bitLength_spec (n : Nat) (hn : 0 < n) :
    (2 : ℚ) ^ ((bitLength n : ℤ) - 1) ≤ n ∧ (n : ℚ) < (2 : ℚ) ^ (bitLength n : ℤ) := by
  obtain ⟨h1, h2⟩ := bitLengthAux_spec n n le_rfl
  have h2 := h2 hn
  have hpos : 1 ≤ bitLength n := by
    by_contra hc
    have h0 : bitLengthAux n n = 0 := by unfold bitLength at hc; omega
    rw [h0] at h1
    simp at h1
    omega
  constructor
  · have : ((bitLength n : ℤ) - 1) = ((bitLength n - 1 : ℕ) : ℤ) := by omega
    rw [this, zpow_natCast]
    exact_mod_cast h2
  · rw [zpow_natCast]
    exact_mod_cast h1

theorem two_zpow_eq_div (e : ℤ) : (2 : ℚ) ^ e = (2 : ℚ) ^ e.toNat / (2 : ℚ) ^ (-e).toNat := by
  have h : e = (e.toNat : ℤ) - ((-e).toNat : ℤ) := (Int.toNat_sub_toNat_neg e).symm
  conv_lhs => rw [h]
  rw [zpow_sub₀ (by norm_num), zpow_natCast, zpow_natCast]


theorem binaryExponent_spec (n d : Nat) (hn : 0 < n) (hd : 0 < d) :
    (2 : ℚ) ^ binaryExponent n d ≤ (n : ℚ) / d ∧
      (n : ℚ) / d < (2 : ℚ) ^ (binaryExponent n d + 1) := by
  obtain ⟨ha1, ha2⟩ := bitLength_spec n hn
  obtain ⟨hb1, hb2⟩ := bitLength_spec d hd
  have hdq : (0 : ℚ) < d := by exact_mod_cast hd
  have h2 : (0 : ℚ) < 2 := by norm_num
  have h2ne : (2 : ℚ) ≠ 0 := by norm_num
  -- the estimate from the two bit lengths
  have hup : (n : ℚ) / d < (2 : ℚ) ^ ((bitLength n : ℤ) - (bitLength d : ℤ) + 1) := by
    rw [div_lt_iff₀ hdq]
    have hsplit : (2 : ℚ) ^ (bitLength n : ℤ)
        = (2 : ℚ) ^ ((bitLength n : ℤ) - (bitLength d : ℤ) + 1)
          * (2 : ℚ) ^ ((bitLength d : ℤ) - 1) := by
      rw [← zpow_add₀ h2ne]; congr 1; ring
    have hpos : (0 : ℚ) < (2 : ℚ) ^ ((bitLength n : ℤ) - (bitLength d : ℤ) + 1) :=
      zpow_pos h2 _
    calc (n : ℚ) < (2 : ℚ) ^ (bitLength n : ℤ) := ha2
      _ = _ := hsplit
      _ ≤ _ := mul_le_mul_of_nonneg_left hb1 hpos.le
  have hlow : (2 : ℚ) ^ ((bitLength n : ℤ) - (bitLength d : ℤ) - 1) ≤ (n : ℚ) / d := by
    rw [le_div_iff₀ hdq]
    have hsplit : (2 : ℚ) ^ ((bitLength n : ℤ) - 1)
        = (2 : ℚ) ^ ((bitLength n : ℤ) - (bitLength d : ℤ) - 1)
          * (2 : ℚ) ^ (bitLength d : ℤ) := by
      rw [← zpow_add₀ h2ne]; congr 1; ring
    have hpos : (0 : ℚ) < (2 : ℚ) ^ ((bitLength n : ℤ) - (bitLength d : ℤ) - 1) :=
      zpow_pos h2 _
    calc _ ≤ (2 : ℚ) ^ ((bitLength n : ℤ) - (bitLength d : ℤ) - 1)
          * (2 : ℚ) ^ (bitLength d : ℤ) := mul_le_mul_of_nonneg_left hb2.le hpos.le
      _ = _ := hsplit.symm
      _ ≤ _ := ha1
  -- the comparison that settles the exponent
  have htest : (n * 2 ^ (-((bitLength n : ℤ) - (bitLength d : ℤ))).toNat
        < d * 2 ^ ((bitLength n : ℤ) - (bitLength d : ℤ)).toNat)
      ↔ (n : ℚ) / d < (2 : ℚ) ^ ((bitLength n : ℤ) - (bitLength d : ℤ)) := by
    rw [two_zpow_eq_div ((bitLength n : ℤ) - (bitLength d : ℤ)),
      div_lt_div_iff₀ hdq (pow_pos h2 _)]
    constructor
    · intro h
      have : ((n * 2 ^ (-((bitLength n : ℤ) - (bitLength d : ℤ))).toNat : ℕ) : ℚ)
          < ((d * 2 ^ ((bitLength n : ℤ) - (bitLength d : ℤ)).toNat : ℕ) : ℚ) := by
        exact_mod_cast h
      push_cast at this
      linarith
    · intro h
      have : ((n * 2 ^ (-((bitLength n : ℤ) - (bitLength d : ℤ))).toNat : ℕ) : ℚ)
          < ((d * 2 ^ ((bitLength n : ℤ) - (bitLength d : ℤ)).toNat : ℕ) : ℚ) := by
        push_cast
        linarith
      exact_mod_cast this
  unfold binaryExponent
  simp only
  split
  · rename_i hc
    refine ⟨hlow, ?_⟩
    have := htest.1 hc
    rwa [sub_add_cancel]
  · rename_i hc
    refine ⟨?_, hup⟩
    exact not_lt.1 (fun h => hc (htest.2 h))

theorem roundHalfEven_spec (n d : Nat) (hd : 0 < d) :
    |((roundHalfEven n d : ℕ) : ℚ) - (n : ℚ) / d| ≤ 1 / 2 := by
  have hdq : (0 : ℚ) < d := by exact_mod_cast hd
  have hdiv : (n : ℚ) = (d : ℚ) * ((n / d : ℕ) : ℚ) + ((n % d : ℕ) : ℚ) := by
    exact_mod_cast (Nat.div_add_mod n d).symm
  have hr : ((n % d : ℕ) : ℚ) < d := by exact_mod_cast Nat.mod_lt n hd
  have hr0 : (0 : ℚ) ≤ ((n % d : ℕ) : ℚ) := Nat.cast_nonneg _
  have hfrac : (n : ℚ) / d = ((n / d : ℕ) : ℚ) + ((n % d : ℕ) : ℚ) / d := by
    rw [hdiv]; field_simp; ring
  have ht0 : (0 : ℚ) ≤ ((n % d : ℕ) : ℚ) / d := div_nonneg hr0 hdq.le
  have ht1 : ((n % d : ℕ) : ℚ) / d < 1 := (div_lt_one hdq).2 hr
  rw [hfrac, abs_le]
  unfold roundHalfEven
  simp only
  split
  · rename_i h
    have hq : (2 : ℚ) * ((n % d : ℕ) : ℚ) < d := by exact_mod_cast h
    have : ((n % d : ℕ) : ℚ) / d < 1 / 2 := by
      rw [div_lt_iff₀ hdq]; linarith
    constructor <;> linarith
  · rename_i h
    have hq : (d : ℚ) ≤ 2 * ((n % d : ℕ) : ℚ) := by exact_mod_cast not_lt.1 h
    have hge : 1 / 2 ≤ ((n % d : ℕ) : ℚ) / d := by
      rw [le_div_iff₀ hdq]; linarith
    split
    · push_cast
      constructor <;> linarith
    · rename_i h'
      have hq' : 2 * ((n % d : ℕ) : ℚ) ≤ d := by exact_mod_cast not_lt.1 h'
      have hle : ((n % d : ℕ) : ℚ) / d ≤ 1 / 2 := by
        rw [div_le_iff₀ hdq]; linarith
      split
      · constructor <;> linarith
      · push_cast
        constructor <;> linarith


/-- The magnitude `roundToDouble` builds: the mantissa times the unit in the last place. -/
theorem mkRat_scaled (m : Nat) (u : ℤ) :
    mkRat (Int.ofNat (m * 2 ^ u.toNat)) (2 ^ (-u).toNat) = (m : ℚ) * (2 : ℚ) ^ u := by
  rw [Rat.mkRat_eq_div, two_zpow_eq_div u]
  simp only [Int.ofNat_eq_coe]
  push_cast
  ring

theorem scaled_ratio (n d : Nat) (u : ℤ) (hd : 0 < d) :
    ((n * 2 ^ (-u).toNat : ℕ) : ℚ) / ((d * 2 ^ u.toNat : ℕ) : ℚ)
      = (n : ℚ) / d / (2 : ℚ) ^ u := by
  have hdq : (d : ℚ) ≠ 0 := by exact_mod_cast hd.ne'
  rw [two_zpow_eq_div u]
  push_cast
  field_simp

/-- A mantissa within 1/2 of `|x| / U`, scaled by the unit `U` and given the sign of `x`,
is within `U / 2` of `x`. -/
theorem scaled_mantissa_error (x p m U B : ℚ) (hx0 : x ≠ 0) (hU : 0 < U)
    (hm : abs (m - abs x / U) ≤ 1 / 2) (hB : U * (1 / 2) ≤ B)
    (h : (if 0 < x then m * U else -(m * U)) = p) : abs (p - x) ≤ B := by
  have hfac : m * U - abs x = U * (m - abs x / U) := by field_simp
  have hmag : abs (m * U - abs x) ≤ B := by
    rw [hfac, abs_mul, abs_of_pos hU]
    exact le_trans (mul_le_mul_of_nonneg_left hm hU.le) hB
  by_cases hpos : 0 < x
  · rw [if_pos hpos] at h
    rw [abs_of_pos hpos] at hmag
    rw [← h]; exact hmag
  · rw [if_neg hpos] at h
    have hneg : x < 0 := lt_of_le_of_ne (not_lt.1 hpos) hx0
    rw [abs_of_neg hneg] at hmag
    have hflip : -(m * U) - x = -(m * U - -x) := by ring
    rw [← h, hflip, abs_neg]; exact hmag

/-- Binary64 rounding has relative error at most `2 ^ (-53)` on the normal range: a finite
result `p` of rounding `x`, with `2 ^ (-1022) ≤ |x|`, is within `2 ^ (-53) * |x|` of `x`. -/
theorem roundToDouble_error (x p : ℚ) (h : roundToDouble x = .finite p)
    (hx : (2 : ℚ) ^ (-1022 : ℤ) ≤ |x|) : |p - x| ≤ (2 : ℚ) ^ (-53 : ℤ) * |x| := by
  have h2 : (0 : ℚ) < 2 := by norm_num
  have h2ne : (2 : ℚ) ≠ 0 := by norm_num
  have hxpos : 0 < |x| := lt_of_lt_of_le (zpow_pos h2 _) hx
  have hx0 : x ≠ 0 := abs_pos.1 hxpos
  have hd : 0 < x.den := x.den_pos
  have hn : 0 < x.num.natAbs := Int.natAbs_pos.2 (Rat.num_ne_zero.2 hx0)
  have habs : |x| = (x.num.natAbs : ℚ) / x.den := by
    conv_lhs => rw [← Rat.num_div_den x]
    rw [abs_div, Nat.cast_natAbs, Int.cast_abs]
    congr 1
    exact abs_of_pos (by exact_mod_cast hd)
  obtain ⟨he1, he2⟩ := binaryExponent_spec x.num.natAbs x.den hn hd
  rw [← habs] at he1 he2
  -- the exponent is in the normal range, so the unit in the last place is `2 ^ (e - 52)`
  have he : -1022 ≤ binaryExponent x.num.natAbs x.den := by
    have := lt_of_le_of_lt hx he2
    have := (zpow_lt_zpow_iff_right₀ (by norm_num : (1 : ℚ) < 2)).1 this
    omega
  have hu : max (binaryExponent x.num.natAbs x.den - 52) (-1074)
      = binaryExponent x.num.natAbs x.den - 52 := max_eq_left (by omega)
  unfold roundToDouble at h
  rw [if_neg hx0] at h
  simp only [hu] at h
  split at h
  · split at h <;> cases h
  · injection h with h
    have hm := roundHalfEven_spec
      (x.num.natAbs * 2 ^ (-(binaryExponent x.num.natAbs x.den - 52)).toNat)
      (x.den * 2 ^ (binaryExponent x.num.natAbs x.den - 52).toNat)
      (Nat.mul_pos hd (pow_pos (by norm_num) _))
    rw [scaled_ratio _ _ _ hd, ← habs] at hm
    rw [mkRat_scaled] at h
    have hU : (0 : ℚ) < (2 : ℚ) ^ (binaryExponent x.num.natAbs x.den - 52) := zpow_pos h2 _
    have hhalf : (2 : ℚ) ^ (binaryExponent x.num.natAbs x.den - 52) * (1 / 2)
        = (2 : ℚ) ^ (-53 : ℤ) * (2 : ℚ) ^ binaryExponent x.num.natAbs x.den := by
      have e1 : (1 / 2 : ℚ) = (2 : ℚ) ^ (-1 : ℤ) := by norm_num
      rw [e1, ← zpow_add₀ h2ne, ← zpow_add₀ h2ne]
      congr 1; ring
    have hbound : (2 : ℚ) ^ (binaryExponent x.num.natAbs x.den - 52) * (1 / 2)
        ≤ (2 : ℚ) ^ (-53 : ℤ) * abs x := by
      rw [hhalf]
      exact mul_le_mul_of_nonneg_left he1 (zpow_pos h2 _).le
    exact scaled_mantissa_error x p _ _ _ hx0 hU hm hbound h

/-! ## Lemmas on the store -/

theorem Store.get_nil (k : DocPath) : Store.get [] k = none := rfl

theorem Store.get_cons (e : DocPath × PaymentRecord) (s : Store) (k : DocPath) :
    Store.get (e :: s) k = if e.1 = k then some e.2 else Store.get s k := by
  unfold Store.get
  by_cases h : e.1 = k <;> simp [List.find?, h]

theorem Store.get_update (s : Store) (k : DocPath) (f : PaymentRecord → PaymentRecord)
    (k' : DocPath) :
    (Store.update s k f).get k' = if k' = k then (s.get k').map f else s.get k' := by
  induction s with
  | nil => simp [Store.update, Store.get_nil]
  | cons e s ih =>
    have hcons : Store.update (e :: s) k f
        = (if e.1 = k then (e.1, f e.2) else e) :: Store.update s k f := rfl
    rw [hcons, Store.get_cons, Store.get_cons, ih]
    by_cases h1 : e.1 = k <;> by_cases h2 : e.1 = k' <;> by_cases h3 : k' = k <;>
      simp_all

theorem Store.get_filter_ne (s : Store) (k k' : DocPath) (h : k' ≠ k) :
    Store.get (s.filter (fun e => decide (e.1 ≠ k))) k' = s.get k' := by
  induction s with
  | nil => rfl
  | cons e s ih =>
    by_cases h1 : e.1 = k
    · have h2 : ¬ e.1 = k' := fun h2 => h (h2 ▸ h1)
      have hf : (e :: s).filter (fun e => decide (e.1 ≠ k))
          = s.filter (fun e => decide (e.1 ≠ k)) := by
        rw [List.filter_cons]; simp [h1]
      rw [hf, ih, Store.get_cons, if_neg h2]
    · have hf : (e :: s).filter (fun e => decide (e.1 ≠ k))
          = e :: s.filter (fun e => decide (e.1 ≠ k)) := by
        rw [List.filter_cons]; simp [h1]
      rw [hf, Store.get_cons, Store.get_cons, ih]

theorem Store.get_set_self (s : Store) (k : DocPath) (r : PaymentRecord) :
    (Store.set s k r).get k = some r := by
  unfold Store.set
  rw [Store.get_cons]; simp

theorem Store.get_set_ne (s : Store) (k : DocPath) (r : PaymentRecord) (k' : DocPath)
    (h : k' ≠ k) : (Store.set s k r).get k' = s.get k' := by
  have h' : ¬ k = k' := fun e => h e.symm
  unfold Store.set
  rw [Store.get_cons, if_neg h', Store.get_filter_ne s k k' h]

theorem Store.update_update (s : Store) (k : DocPath) (f g : PaymentRecord → PaymentRecord) :
    Store.update (Store.update s k f) k g = Store.update s k (fun r => g (f r)) := by
  unfold Store.update
  rw [List.map_map]
  apply List.map_congr_left
  intro e _
  by_cases h : e.1 = k <;> simp [h]

/-! ## Lemmas on the store client -/

theorem truthy_ne_undefined (v : JsValue) (h : truthy v = true) : v ≠ .undefined := by
  intro hv
  rw [hv] at h
  exact Bool.false_ne_true h

theorem jsOr_str_ne_undefined (v : JsValue) (s : String) : jsOr v (.str s) ≠ .undefined := by
  unfold jsOr
  by_cases h : truthy v = true
  · rw [if_pos h]; exact truthy_ne_undefined v h
  · rw [if_neg h]; exact fun h' => JsValue.noConfusion h'

theorem docRef_ok_ne_undefined (v : JsValue) (path : DocPath) (h : docRef v = .ok path) :
    v ≠ .undefined := by
  intro hv
  rw [hv] at h
  exact Except.noConfusion h

/-- The record `createBill` builds has no `undefined` field when the four required fields
are truthy, the bill's id is a document path and its url is there. -/
theorem setError_paymentRecordOf (env : CreateEnv) (b : CreateBody) (bill : Bill)
    (path : DocPath) (hp : docRef bill.id = .ok path) (hu : bill.url ≠ .undefined)
    (ha : truthy b.amount = true) (hd : truthy b.description = true)
    (hn : truthy b.customerName = true) (he : truthy b.customerEmail = true) :
    setError (paymentRecordOf env b bill) = none := by
  have h1 := docRef_ok_ne_undefined bill.id path hp
  have h2 := jsOr_str_ne_undefined b.orderId ""
  have h3 := truthy_ne_undefined _ hn
  have h4 := truthy_ne_undefined _ he
  have h5 := jsOr_str_ne_undefined b.customerPhone ""
  have h6 := truthy_ne_undefined _ ha
  have h7 := truthy_ne_undefined _ hd
  simp only [setError, paymentRecordOf, firstUndefined, if_neg h1, if_neg h2, if_neg h3,
    if_neg h4, if_neg h5, if_neg h6, if_neg h7, if_neg hu]

/-! ## `createBill`: validation, persistence, gateway failure -/

/-- The outcome of `createBill` on a `POST` in which one of the four required fields is
falsy. -/
theorem createBill_invalid (env : CreateEnv) (store : Store) (req : Request CreateBody)
    (hm : req.method = "POST")
    (h : truthy req.body.amount = false ∨ truthy req.body.description = false ∨
      truthy req.body.customerName = false ∨ truthy req.body.customerEmail = false) :
    createBill env store req
      = ⟨caught "Failed to create bill: " missingRequiredFields, store, []⟩ := by
  have hcond : (!truthy req.body.amount || !truthy req.body.description
      || !truthy req.body.customerName || !truthy req.body.customerEmail) = true := by
    rcases h with h | h | h | h <;> simp [h]
  unfold createBill
  rw [if_neg (by rw [hm]; decide), if_neg (by rw [hm]; decide)]
  simp only [hcond, if_true]

/-- C3: a create request in which amount, description, customerName or customerEmail is
missing or falsy is answered with the missing-required-fields error, sends nothing to the
gateway, and leaves the payments store as it was. -/
theorem createBill_missing_field (env : CreateEnv) (store : Store) (req : Request CreateBody)
    (hm : req.method = "POST")
    (h : truthy req.body.amount = false ∨ truthy req.body.description = false ∨
      truthy req.body.customerName = false ∨ truthy req.body.customerEmail = false) :
    (createBill env store req).response
        = caught "Failed to create bill: " missingRequiredFields ∧
      (createBill env store req).response.body = .failure
        "Failed to create bill: Missing required fields: amount, description, customerName, customerEmail" ∧
      (createBill env store req).gatewayCalls = [] ∧
      (createBill env store req).store = store := by
  have hb : (caught "Failed to create bill: " missingRequiredFields).body = .failure
      "Failed to create bill: Missing required fields: amount, description, customerName, customerEmail" := by
    decide
  rw [createBill_invalid env store req hm h]
  exact ⟨rfl, hb, rfl, rfl⟩

/-- Witness for C3: a `POST` whose body has no field at all. -/
theorem createBill_missing_field_witness :
    (createBill answeringEnv janeStore (postOf emptyCreateBody)).response
        = caught "Failed to create bill: " missingRequiredFields ∧
      (createBill answeringEnv janeStore (postOf emptyCreateBody)).response.body = .failure
        "Failed to create bill: Missing required fields: amount, description, customerName, customerEmail" ∧
      (createBill answeringEnv janeStore (postOf emptyCreateBody)).gatewayCalls = [] ∧
      (createBill answeringEnv janeStore (postOf emptyCreateBody)).store = janeStore :=
  createBill_missing_field answeringEnv janeStore (postOf emptyCreateBody) rfl (Or.inl rfl)

/-- The outcome of `createBill` on a `POST` with the four required fields truthy, by the
gateway's answer. -/
theorem createBill_valid (env : CreateEnv) (store : Store) (req : Request CreateBody)
    (hm : req.method = "POST")
    (ha : truthy req.body.amount = true) (hd : truthy req.body.description = true)
    (hn : truthy req.body.customerName = true) (he : truthy req.body.customerEmail = true) :
    createBill env store req =
      match env.gateway (billDataOf env req.body) with
      | .error message =>
        ⟨caught "Failed to create bill: " message, store, [billDataOf env req.body]⟩
      | .ok bill =>
        storeBill store bill (paymentRecordOf env req.body bill) (billDataOf env req.body) := by
  unfold createBill
  rw [if_neg (by rw [hm]; decide), if_neg (by rw [hm]; decide)]
  simp only [ha, hd, hn, he, Bool.not_true, Bool.or_self, Bool.false_eq_true, if_false]

/-- The outcome of `createBill` on a valid `POST` whose gateway bill has an id that is a
document path and a url that is there: the record is stored under that path. -/
theorem createBill_stored (env : CreateEnv) (store : Store) (req : Request CreateBody)
    (bill : Bill) (path : DocPath) (hm : req.method = "POST")
    (ha : truthy req.body.amount = true) (hd : truthy req.body.description = true)
    (hn : truthy req.body.customerName = true) (he : truthy req.body.customerEmail = true)
    (hg : env.gateway (billDataOf env req.body) = .ok bill)
    (hp : docRef bill.id = .ok path) (hu : bill.url ≠ .undefined) :
    createBill env store req =
      ⟨success (.billCreated bill.id bill.url "Bill created successfully"),
        store.set path (paymentRecordOf env req.body bill), [billDataOf env req.body]⟩ := by
  rw [createBill_valid env store req hm ha hd hn he, hg]
  show storeBill _ _ _ _ = _
  unfold storeBill
  rw [hp]
  simp only [setError_paymentRecordOf env req.body bill path hp hu ha hd hn he]

/-- C4, as stated, fails: the example request, answered by the gateway with a bill
`{id, url}` whose id is the string `bill/123`, is refused by the store client, which takes
`payments/bill/123` for no document; the answer is a 500 and no record is stored.  The same
happens for a bill whose id is the number 123. -/
theorem createBill_id_not_document_path :
    truthy janeBody.amount = true ∧ truthy janeBody.description = true ∧
      truthy janeBody.customerName = true ∧ truthy janeBody.customerEmail = true ∧
      slashEnv.gateway (billDataOf slashEnv janeBody) = .ok slashBill ∧
      (createBill slashEnv [] (postOf janeBody)).store = [] ∧
      (createBill slashEnv [] (postOf janeBody)).response.status = 500 ∧
      numericEnv.gateway (billDataOf numericEnv janeBody) = .ok numericBill ∧
      (createBill numericEnv [] (postOf janeBody)).store = [] ∧
      (createBill numericEnv [] (postOf janeBody)).response.status = 500 := by
  decide

/-- C4, amended: a create request with the four required fields present, answered by the
gateway with a bill `{id, url}` whose id is a document path the store client takes and whose
url is not `undefined`, leaves exactly one record under that path; the record has `billId`
equal to `id`, `billUrl` equal to `url`, the amount of the request as it came, status
`pending` and no `paidAt` field; the records under every other path are as before. -/
theorem createBill_stores_pending (env : CreateEnv) (store : Store) (req : Request CreateBody)
    (bill : Bill) (path : DocPath) (hm : req.method = "POST")
    (ha : truthy req.body.amount = true) (hd : truthy req.body.description = true)
    (hn : truthy req.body.customerName = true) (he : truthy req.body.customerEmail = true)
    (hg : env.gateway (billDataOf env req.body) = .ok bill)
    (hp : docRef bill.id = .ok path) (hu : bill.url ≠ .undefined) :
    ∃ r : PaymentRecord,
      (createBill env store req).store.filter (fun e => decide (e.1 = path))
          = [(path, r)] ∧
      (createBill env store req).store.get path = some r ∧
      (createBill env store req).store.filter (fun e => decide (e.1 ≠ path))
          = store.filter (fun e => decide (e.1 ≠ path)) ∧
      r.billId = bill.id ∧ r.billUrl = bill.url ∧ r.amount = req.body.amount ∧
      r.status = "pending" ∧ r.paidAt = .absent ∧
      (createBill env store req).response.status = 200 := by
  refine ⟨paymentRecordOf env req.body bill, ?_⟩
  rw [createBill_stored env store req bill path hm ha hd hn he hg hp hu]
  refine ⟨?_, Store.get_set_self _ _ _, ?_, rfl, rfl, rfl, rfl, rfl, rfl⟩
  · show List.filter _ (Store.set store path _) = _
    unfold Store.set
    rw [List.filter_cons]
    simp only [decide_True, if_true, List.filter_filter]
    simp
  · show List.filter _ (Store.set store path _) = _
    unfold Store.set
    rw [List.filter_cons]
    simp [List.filter_filter]

/-- Witness for C4 amended: the specification's example, created in an empty store. -/
theorem createBill_stores_pending_witness :
    ∃ r : PaymentRecord,
      (createBill answeringEnv [] (postOf janeBody)).store.filter
          (fun e => decide (e.1 = ["bill_123"])) = [(["bill_123"], r)] ∧
      (createBill answeringEnv [] (postOf janeBody)).store.get ["bill_123"] = some r ∧
      (createBill answeringEnv [] (postOf janeBody)).store.filter
          (fun e => decide (e.1 ≠ ["bill_123"]))
          = ([] : Store).filter (fun e => decide (e.1 ≠ ["bill_123"])) ∧
      r.billId = bill123.id ∧ r.billUrl = bill123.url ∧
      r.amount = (postOf janeBody).body.amount ∧
      r.status = "pending" ∧ r.paidAt = .absent ∧
      (createBill answeringEnv [] (postOf janeBody)).response.status = 200 :=
  createBill_stores_pending answeringEnv [] (postOf janeBody) bill123 ["bill_123"] rfl
    (by decide) (by decide) (by decide) (by decide) rfl (by decide) (by decide)

/-- C6: when the gateway's bill-creation call fails on a valid create request, the caller
gets a failure carrying the gateway's message and the payments store is as it was; the one
request sent to the gateway is the bill request. -/
theorem createBill_gateway_failure (env : CreateEnv) (store : Store)
    (req : Request CreateBody) (message : String) (hm : req.method = "POST")
    (ha : truthy req.body.amount = true) (hd : truthy req.body.description = true)
    (hn : truthy req.body.customerName = true) (he : truthy req.body.customerEmail = true)
    (hg : env.gateway (billDataOf env req.body) = .error message) :
    (createBill env store req).response.status = 500 ∧
      (createBill env store req).response.body
        = .failure ("Failed to create bill: " ++ message) ∧
      (createBill env store req).store = store ∧
      (createBill env store req).gatewayCalls = [billDataOf env req.body] := by
  rw [createBill_valid env store req hm ha hd hn he, hg]
  exact ⟨rfl, rfl, rfl, rfl⟩

/-- Witness for C6: the specification's example against a gateway that refuses the bill. -/
theorem createBill_gateway_failure_witness :
    (createBill failingEnv janeStore (postOf janeBody)).response.status = 500 ∧
      (createBill failingEnv janeStore (postOf janeBody)).response.body
        = .failure ("Failed to create bill: " ++ "Request failed with status code 422") ∧
      (createBill failingEnv janeStore (postOf janeBody)).store = janeStore ∧
      (createBill failingEnv janeStore (postOf janeBody)).gatewayCalls
        = [billDataOf failingEnv (postOf janeBody).body] :=
  createBill_gateway_failure failingEnv janeStore (postOf janeBody)
    "Request failed with status code 422" rfl (by decide) (by decide) (by decide)
    (by decide) rfl

/-! ## `paymentCallback` -/

/-- The outcome of `paymentCallback` on a `POST` whose `billplzid` is truthy. -/
theorem paymentCallback_post (dateParse : String → Option Int) (now : Int) (store : Store)
    (req : Request CallbackBody)
    (hm : req.method = "POST") (hid : truthy req.body.billplzid = true) :
    paymentCallback dateParse now store req =
      match docRef req.body.billplzid with
      | .error message => ⟨caught "Payment callback failed: " message, store, []⟩
      | .ok path =>
        match store.get path with
        | none => ⟨caught "Payment callback failed: " "Payment record not found", store, []⟩
        | some _ =>
          match paidAtOf dateParse req.body with
          | .error message => ⟨caught "Payment callback failed: " message, store, []⟩
          | .ok paidAt =>
            ⟨success (.ok "Payment callback processed successfully"),
              store.update path (applyCallback now req.body paidAt), []⟩ := by
  unfold paymentCallback
  rw [if_neg (by rw [hm]; decide), if_neg (by rw [hm]; decide)]
  simp only [hid, Bool.not_true, Bool.false_eq_true, if_false]

/-- The store after `paymentCallback`: the update of the record under `billplzid` when the
request is a `POST`, `billplzid` is truthy and a document path, a record is there and the
client encodes `paidAt`; the store as it was in every other case. -/
theorem paymentCallback_store (dateParse : String → Option Int) (now : Int) (store : Store)
    (req : Request CallbackBody) :
    (paymentCallback dateParse now store req).store =
      match docRef req.body.billplzid, paidAtOf dateParse req.body with
      | .ok path, .ok paidAt =>
        if req.method = "POST" ∧ truthy req.body.billplzid = true
            ∧ (store.get path).isSome = true then
          store.update path (applyCallback now req.body paidAt)
        else store
      | _, _ => store := by
  by_cases hm : req.method = "POST"
  · by_cases hid : truthy req.body.billplzid = true
    · rw [paymentCallback_post dateParse now store req hm hid]
      cases hdoc : docRef req.body.billplzid with
      | error message => rfl
      | ok path =>
        cases hpa : paidAtOf dateParse req.body with
        | error message =>
          cases hg : store.get path <;> simp [hg]
        | ok paidAt =>
          cases hg : store.get path <;> simp [hg, hm, hid]
    · have hid' : truthy req.body.billplzid = false := by simpa using hid
      have hOut : (paymentCallback dateParse now store req).store = store := by
        unfold paymentCallback
        rw [if_neg (by rw [hm]; decide), if_neg (by rw [hm]; decide)]
        simp [hid']
      rw [hOut]
      cases docRef req.body.billplzid <;> cases paidAtOf dateParse req.body <;> simp [hid]
  · have hOut : (paymentCallback dateParse now store req).store = store := by
      unfold paymentCallback
      by_cases ho : req.method = "OPTIONS"
      · simp [ho]
      · simp [ho, hm]
    rw [hOut]
    cases docRef req.body.billplzid <;> cases paidAtOf dateParse req.body <;> simp [hm]

/-- C5, as stated, fails: a callback whose `billplzid` is the number 123 has a present
`billplzid` and no record, yet it is not answered with "Payment record not found": the
store client refuses the key before any lookup, and the failure carries its message. -/
theorem paymentCallback_numeric_id_not_found_message :
    truthy numericIdCallback.billplzid = true ∧
      (∀ path : DocPath, docRef numericIdCallback.billplzid ≠ .ok path) ∧
      (paymentCallback sampleDateParse 2000 janeStore (postOf numericIdCallback)).response.body
        ≠ .failure "Payment callback failed: Payment record not found" ∧
      (paymentCallback sampleDateParse 2000 janeStore (postOf numericIdCallback)).response.body
        = .failure ("Payment callback failed: " ++ notResourcePath) := by
  refine ⟨by decide, ?_, by decide, by decide⟩
  intro path h
  exact Except.noConfusion h

/-- C5, amended: a callback whose `billplzid` is present but names no record in the payments
store is answered with a failure (status 500, `success: false`) and the store is as it was:
no record is created and none is modified.  The error is "Payment record not found" when
`billplzid` is a document path the store client takes, and the client's own message when it
is not. -/
theorem paymentCallback_not_found (dateParse : String → Option Int) (now : Int)
    (store : Store) (req : Request CallbackBody)
    (hm : req.method = "POST") (hid : truthy req.body.billplzid = true)
    (hnone : ∀ path : DocPath, docRef req.body.billplzid = .ok path → store.get path = none) :
    (paymentCallback dateParse now store req).response.status = 500 ∧
      (∃ message : String, (paymentCallback dateParse now store req).response.body
        = .failure ("Payment callback failed: " ++ message)) ∧
      (paymentCallback dateParse now store req).store = store ∧
      (∀ path : DocPath, docRef req.body.billplzid = .ok path →
        (paymentCallback dateParse now store req).response.body
          = .failure "Payment callback failed: Payment record not found" ∧
        (paymentCallback dateParse now store req).store.get path = none) ∧
      (∀ message : String, docRef req.body.billplzid = .error message →
        (paymentCallback dateParse now store req).response.body
          = .failure ("Payment callback failed: " ++ message)) := by
  have hb : (caught "Payment callback failed: " "Payment record not found").body
      = .failure "Payment callback failed: Payment record not found" := by decide
  have hOut := paymentCallback_post dateParse now store req hm hid
  cases hdoc : docRef req.body.billplzid with
  | error message =>
    rw [hdoc] at hOut
    rw [hOut]
    refine ⟨rfl, ⟨message, rfl⟩, rfl, ?_, ?_⟩
    · intro path h; exact Except.noConfusion h
    · intro m h
      injection h with h
      rw [h]; rfl
  | ok path =>
    have hg := hnone path hdoc
    rw [hdoc] at hOut
    simp only [hg] at hOut
    rw [hOut]
    refine ⟨rfl, ⟨"Payment record not found", rfl⟩, rfl, ?_, ?_⟩
    · intro path' h
      injection h with h
      subst h
      exact ⟨hb, hg⟩
    · intro m h; exact Except.noConfusion h

/-- Witness for C5 amended: the example callback against an empty store. -/
theorem paymentCallback_not_found_witness :
    (paymentCallback sampleDateParse 2000 [] (postOf completedCallback)).response.status = 500 ∧
      (∃ message : String,
        (paymentCallback sampleDateParse 2000 [] (postOf completedCallback)).response.body
          = .failure ("Payment callback failed: " ++ message)) ∧
      (paymentCallback sampleDateParse 2000 [] (postOf completedCallback)).store = [] ∧
      (∀ path : DocPath, docRef (postOf completedCallback).body.billplzid = .ok path →
        (paymentCallback sampleDateParse 2000 [] (postOf completedCallback)).response.body
          = .failure "Payment callback failed: Payment record not found" ∧
        (paymentCallback sampleDateParse 2000 [] (postOf completedCallback)).store.get path
          = none) ∧
      (∀ message : String, docRef (postOf completedCallback).body.billplzid = .error message →
        (paymentCallback sampleDateParse 2000 [] (postOf completedCallback)).response.body
          = .failure ("Payment callback failed: " ++ message)) :=
  paymentCallback_not_found sampleDateParse 2000 [] (postOf completedCallback) rfl (by decide)
    (fun _ _ => rfl)

/-- C2, as stated, fails twice.  On the specification's own example callback, which carries
no `billplztransaction_id`, the record's `transactionId` becomes the empty string, which is
not the payload's (missing) `billplztransaction_id`.  And a completed callback that carries
no `billplzpaid_at` is answered with a 500 and leaves the record pending: the store client
throws on the Invalid Date. -/
theorem paymentCallback_completed_not_as_claimed :
    (postOf completedCallback).body.billplztransaction_status = .str "completed" ∧
      (janeStore.get ["bill_123"]).isSome = true ∧
      ((paymentCallback sampleDateParse 2000 janeStore (postOf completedCallback)).store.get
          ["bill_123"]).map PaymentRecord.transactionId = some (some (.str "")) ∧
      ((paymentCallback sampleDateParse 2000 janeStore (postOf completedCallback)).store.get
          ["bill_123"]).map PaymentRecord.transactionId
        ≠ some (some (postOf completedCallback).body.billplztransaction_id) ∧
      (postOf undatedCallback).body.billplztransaction_status = .str "completed" ∧
      (paymentCallback sampleDateParse 2000 janeStore (postOf undatedCallback)).response.status
        = 500 ∧
      ((paymentCallback sampleDateParse 2000 janeStore (postOf undatedCallback)).store.get
          ["bill_123"]).map PaymentRecord.status = some "pending" := by
  decide

/-- C2, amended: take a callback whose `billplzid` is present and names an existing record
`r`.  When `billplztransaction_status` is `"completed"` and `billplzpaid_at` makes a Date the
store client encodes, the callback is acknowledged and the record gets status `paid` and
`paidAt` that date; when it is `"completed"` and the Date is not encoded (an Invalid Date, a
year outside 1 to 9999), the callback fails with a 500 and the store is as it was; for every
other `billplztransaction_status` the callback is acknowledged and the record gets status
`failed` and `paidAt` null.  Whenever the record is written, `transactionId` is the payload's
`billplztransaction_id` if that is truthy and the empty string otherwise, `updatedAt` is
the time of the callback, and the fields written at creation are those of `r`. -/
theorem paymentCallback_updates (dateParse : String → Option Int) (now : Int) (store : Store)
    (req : Request CallbackBody) (path : DocPath) (r : PaymentRecord)
    (hm : req.method = "POST") (hid : truthy req.body.billplzid = true)
    (hp : docRef req.body.billplzid = .ok path) (hr : store.get path = some r) :
    (∀ time : Int, req.body.billplztransaction_status = .str "completed" →
        encodeDate (newDate dateParse req.body.billplzpaid_at) = .ok time →
        (paymentCallback dateParse now store req).response.status = 200 ∧
        ∃ r' : PaymentRecord,
          (paymentCallback dateParse now store req).store.get path = some r' ∧
          r'.status = "paid" ∧ r'.paidAt = .date time ∧
          r'.transactionId = some (jsOr req.body.billplztransaction_id (.str "")) ∧
          r'.updatedAt = now ∧
          r'.billId = r.billId ∧ r'.amount = r.amount ∧
          r'.customerEmail = r.customerEmail ∧ r'.billUrl = r.billUrl ∧
          r'.createdAt = r.createdAt) ∧
      (∀ message : String, req.body.billplztransaction_status = .str "completed" →
        encodeDate (newDate dateParse req.body.billplzpaid_at) = .error message →
        (paymentCallback dateParse now store req).response
          = caught "Payment callback failed: " message ∧
        (paymentCallback dateParse now store req).store = store) ∧
      (req.body.billplztransaction_status ≠ .str "completed" →
        (paymentCallback dateParse now store req).response.status = 200 ∧
        ∃ r' : PaymentRecord,
          (paymentCallback dateParse now store req).store.get path = some r' ∧
          r'.status = "failed" ∧ r'.paidAt = .null ∧
          r'.transactionId = some (jsOr req.body.billplztransaction_id (.str "")) ∧
          r'.updatedAt = now ∧
          r'.billId = r.billId ∧ r'.amount = r.amount ∧
          r'.customerEmail = r.customerEmail ∧ r'.billUrl = r.billUrl ∧
          r'.createdAt = r.createdAt) ∧
      (truthy req.body.billplztransaction_id = true →
        jsOr req.body.billplztransaction_id (.str "") = req.body.billplztransaction_id) ∧
      (truthy req.body.billplztransaction_id = false →
        jsOr req.body.billplztransaction_id (.str "") = .str "") := by
  have hOut := paymentCallback_post dateParse now store req hm hid
  rw [hp] at hOut
  simp only [hr] at hOut
  refine ⟨?_, ?_, ?_, ?_, ?_⟩
  · intro time hc he
    have hpa : paidAtOf dateParse req.body = .ok (.date time) := by
      simp [paidAtOf, isPaid, hc, he]
    rw [hpa] at hOut
    rw [hOut]
    refine ⟨rfl, applyCallback now req.body (.date time) r, ?_, ?_, rfl, rfl, rfl, rfl, rfl,
      rfl, rfl, rfl⟩
    · show (Store.update store _ _).get _ = _
      rw [Store.get_update, if_pos rfl, hr]; rfl
    · simp [applyCallback, isPaid, hc]
  · intro message hc he
    have hpa : paidAtOf dateParse req.body = .error message := by
      simp [paidAtOf, isPaid, hc, he]
    rw [hpa] at hOut
    rw [hOut]
    exact ⟨rfl, rfl⟩
  · intro hc
    have hpa : paidAtOf dateParse req.body = .ok .null := by
      simp [paidAtOf, isPaid, hc]
    rw [hpa] at hOut
    rw [hOut]
    refine ⟨rfl, applyCallback now req.body .null r, ?_, ?_, rfl, rfl, rfl, rfl, rfl,
      rfl, rfl, rfl⟩
    · show (Store.update store _ _).get _ = _
      rw [Store.get_update, if_pos rfl, hr]; rfl
    · simp [applyCallback, isPaid, hc]
  · intro ht
    simp [jsOr, ht]
  · intro ht
    simp [jsOr, ht]

/-- Witness for C2 amended: the example callback applied to the example record. -/
theorem paymentCallback_updates_witness :
    (paymentCallback sampleDateParse 2000 janeStore (postOf completedCallback)).response.status
        = 200 ∧
      ∃ r' : PaymentRecord,
        (paymentCallback sampleDateParse 2000 janeStore (postOf completedCallback)).store.get
          ["bill_123"] = some r' ∧
        r'.status = "paid" ∧ r'.paidAt = .date 1704103200000 ∧
        r'.transactionId
          = some (jsOr (postOf completedCallback).body.billplztransaction_id (.str "")) ∧
        r'.updatedAt = 2000 ∧
        r'.billId = (paymentRecordOf answeringEnv janeBody bill123).billId ∧
        r'.amount = (paymentRecordOf answeringEnv janeBody bill123).amount ∧
        r'.customerEmail = (paymentRecordOf answeringEnv janeBody bill123).customerEmail ∧
        r'.billUrl = (paymentRecordOf answeringEnv janeBody bill123).billUrl ∧
        r'.createdAt = (paymentRecordOf answeringEnv janeBody bill123).createdAt :=
  (paymentCallback_updates sampleDateParse 2000 janeStore (postOf completedCallback)
    ["bill_123"] (paymentRecordOf answeringEnv janeBody bill123) rfl (by decide) (by decide)
    (by decide)).1 1704103200000 rfl (by decide)

/-- C9, as stated, fails: the example callback applied twice, at clock readings 2000 and
3000, leaves a record that differs from the one left by applying it once at 2000; the two
differ in `updatedAt`. -/
theorem paymentCallback_twice_differs :
    (paymentCallback sampleDateParse 3000
        (paymentCallback sampleDateParse 2000 janeStore (postOf completedCallback)).store
        (postOf completedCallback)).store.get ["bill_123"]
      ≠ (paymentCallback sampleDateParse 2000 janeStore (postOf completedCallback)).store.get
        ["bill_123"] ∧
    ((paymentCallback sampleDateParse 3000
        (paymentCallback sampleDateParse 2000 janeStore (postOf completedCallback)).store
        (postOf completedCallback)).store.get ["bill_123"]).map PaymentRecord.updatedAt
      = some 3000 ∧
    ((paymentCallback sampleDateParse 2000 janeStore (postOf completedCallback)).store.get
        ["bill_123"]).map PaymentRecord.updatedAt = some 2000 := by
  decide

/-- C9, amended: applying the same callback payload twice leaves the store as one application
leaves it in every field but `updatedAt`, which holds the clock reading of the second
application; so the store after both applications is the store after the second one alone. -/
theorem paymentCallback_idempotent_up_to_updatedAt (dateParse : String → Option Int)
    (t₁ t₂ : Int) (store : Store) (req : Request CallbackBody) :
    (paymentCallback dateParse t₂ (paymentCallback dateParse t₁ store req).store req).store
        = (paymentCallback dateParse t₂ store req).store ∧
      ((paymentCallback dateParse t₂
          (paymentCallback dateParse t₁ store req).store req).store.map
          (fun e => (e.1, withoutUpdatedAt e.2)))
        = ((paymentCallback dateParse t₁ store req).store.map
          (fun e => (e.1, withoutUpdatedAt e.2))) := by
  cases hdoc : docRef req.body.billplzid with
  | error message =>
    have h : ∀ (t : Int) (s : Store), (paymentCallback dateParse t s req).store = s := by
      intro t s
      rw [paymentCallback_store, hdoc]
    rw [h t₁ store, h t₂ store]
    exact ⟨rfl, rfl⟩
  | ok path =>
    cases hpa : paidAtOf dateParse req.body with
    | error message =>
      have h : ∀ (t : Int) (s : Store), (paymentCallback dateParse t s req).store = s := by
        intro t s
        rw [paymentCallback_store, hdoc, hpa]
      rw [h t₁ store, h t₂ store]
      exact ⟨rfl, rfl⟩
    | ok paidAt =>
      have h : ∀ (t : Int) (s : Store), (paymentCallback dateParse t s req).store
          = if req.method = "POST" ∧ truthy req.body.billplzid = true
              ∧ (s.get path).isSome = true then
            s.update path (applyCallback t req.body paidAt)
          else s := by
        intro t s
        rw [paymentCallback_store, hdoc, hpa]
      by_cases hc : req.method = "POST" ∧ truthy req.body.billplzid = true
          ∧ (store.get path).isSome = true
      · have h1 : (paymentCallback dateParse t₁ store req).store
            = store.update path (applyCallback t₁ req.body paidAt) := by
          rw [h, if_pos hc]
        have hsome : ((store.update path (applyCallback t₁ req.body paidAt)).get
            path).isSome = true := by
          rw [Store.get_update, if_pos rfl]
          simpa using hc.2.2
        have h2 : (paymentCallback dateParse t₂
              (paymentCallback dateParse t₁ store req).store req).store
            = store.update path
                (fun r => applyCallback t₂ req.body paidAt
                  (applyCallback t₁ req.body paidAt r)) := by
          rw [h, h1, if_pos ⟨hc.1, hc.2.1, hsome⟩, Store.update_update]
        have h3 : (fun r => applyCallback t₂ req.body paidAt
              (applyCallback t₁ req.body paidAt r))
            = applyCallback t₂ req.body paidAt := by
          funext r; rfl
        refine ⟨?_, ?_⟩
        · rw [h2, h3, h t₂ store, if_pos hc]
        · rw [h2, h1]
          unfold Store.update
          rw [List.map_map, List.map_map]
          apply List.map_congr_left
          intro e _
          by_cases hk : e.1 = path <;> simp [hk, withoutUpdatedAt, applyCallback]
      · have h1 : (paymentCallback dateParse t₁ store req).store = store := by
          rw [h, if_neg hc]
        have h2 : (paymentCallback dateParse t₂ store req).store = store := by
          rw [h, if_neg hc]
        rw [h1, h2]
        exact ⟨rfl, rfl⟩

/-! ## The status of a record over the handlers -/

/-- C1, as stated, fails: from the empty store, the example bill is created, a completed
callback marks it paid, and a later callback with another transaction status turns the paid
record into a failed one. -/
theorem status_paid_then_failed :
    (janeStore.get ["bill_123"]).map PaymentRecord.status = some "pending" ∧
    (paidStore.get ["bill_123"]).map PaymentRecord.status = some "paid" ∧
    ((paymentCallback sampleDateParse 3000 paidStore (postOf failedCallback)).store.get
        ["bill_123"]).map PaymentRecord.status = some "failed" := by
  decide

/-- C1, amended: a record whose status is not `pending` is not set back to `pending` by
`paymentCallback`, by `getPaymentStatus`, by `getCustomerPayments`, nor by a `createBill`
whose gateway-issued id is not the record's path.  A `paymentCallback` for the record's
path whose `paidAt` the store client encodes writes the status its payload decides, `paid`
for `"completed"` and `failed` otherwise, whatever the status was before; one whose `paidAt`
the client does not encode leaves the store as it was. -/
theorem status_not_back_to_pending (store : Store) (k : DocPath) (r : PaymentRecord)
    (hr : store.get k = some r) (hs : r.status ≠ "pending") :
    (∀ (dateParse : String → Option Int) (now : Int) (req : Request CallbackBody),
        ∃ r' : PaymentRecord,
          (paymentCallback dateParse now store req).store.get k = some r' ∧
          r'.status ≠ "pending") ∧
      (∀ (dateParse : String → Option Int) (now : Int) (req : Request CallbackBody)
        (paidAt : PaidAt), req.method = "POST" →
        truthy req.body.billplzid = true → docRef req.body.billplzid = .ok k →
        paidAtOf dateParse req.body = .ok paidAt →
        ((paymentCallback dateParse now store req).store.get k).map PaymentRecord.status
          = some (if isPaid req.body then "paid" else "failed")) ∧
      (∀ (dateParse : String → Option Int) (now : Int) (req : Request CallbackBody)
        (message : String), paidAtOf dateParse req.body = .error message →
        (paymentCallback dateParse now store req).store = store) ∧
      (∀ req : Request StatusBody, (getPaymentStatus store req).store = store) ∧
      (∀ req : Request HistoryBody, (getCustomerPayments store req).store = store) ∧
      (∀ (env : CreateEnv) (req : Request CreateBody),
        (∀ bill : Bill, env.gateway (billDataOf env req.body) = .ok bill →
          docRef bill.id ≠ .ok k) →
        (createBill env store req).store.get k = some r) := by
  refine ⟨?_, ?_, ?_, ?_, ?_, ?_⟩
  · intro dateParse now req
    rw [paymentCallback_store]
    cases hdoc : docRef req.body.billplzid with
    | error message => exact ⟨r, hr, hs⟩
    | ok path =>
      cases hpa : paidAtOf dateParse req.body with
      | error message => exact ⟨r, hr, hs⟩
      | ok paidAt =>
        simp only
        split
        · rw [Store.get_update, hr]
          by_cases hk : k = path
          · refine ⟨applyCallback now req.body paidAt r, by simp [hk], ?_⟩
            show (if isPaid req.body then "paid" else "failed") ≠ "pending"
            split <;> decide
          · exact ⟨r, by simp [hk], hs⟩
        · exact ⟨r, hr, hs⟩
  · intro dateParse now req paidAt hm hid hk hpa
    have hsome : (store.get k).isSome = true := by rw [hr]; rfl
    rw [paymentCallback_store, hk, hpa]
    simp only
    rw [if_pos ⟨hm, hid, hsome⟩, Store.get_update, if_pos rfl, hr]
    rfl
  · intro dateParse now req message hpa
    rw [paymentCallback_store, hpa]
    cases docRef req.body.billplzid <;> rfl
  · intro req
    unfold getPaymentStatus
    split
    · rfl
    · split
      · rfl
      · split
        · rfl
        · split
          · rfl
          · split <;> rfl
  · intro req
    unfold getCustomerPayments
    split
    · rfl
    · split
      · rfl
      · dsimp only
        split <;> rfl
  · intro env req hfresh
    unfold createBill
    split
    · exact hr
    · split
      · exact hr
      · dsimp only
        split
        · exact hr
        · cases hg : env.gateway (billDataOf env req.body) with
          | error message => exact hr
          | ok bill =>
            show (storeBill store bill _ _).store.get k = some r
            unfold storeBill
            cases hdoc : docRef bill.id with
            | error message => exact hr
            | ok path =>
              have hne : k ≠ path := fun h => hfresh bill hg (by rw [hdoc, h])
              cases hset : setError (paymentRecordOf env req.body bill) with
              | some message => exact hr
              | none =>
                show (Store.set store path _).get k = some r
                rw [Store.get_set_ne _ _ _ _ hne, hr]

/-- Witness for C1 amended: the example record once it is paid. -/
theorem status_not_back_to_pending_witness :
    (∀ (dateParse : String → Option Int) (now : Int) (req : Request CallbackBody),
        ∃ r' : PaymentRecord,
          (paymentCallback dateParse now paidStore req).store.get ["bill_123"] = some r' ∧
          r'.status ≠ "pending") ∧
      (∀ (dateParse : String → Option Int) (now : Int) (req : Request CallbackBody)
        (paidAt : PaidAt), req.method = "POST" →
        truthy req.body.billplzid = true → docRef req.body.billplzid = .ok ["bill_123"] →
        paidAtOf dateParse req.body = .ok paidAt →
        ((paymentCallback dateParse now paidStore req).store.get ["bill_123"]).map
            PaymentRecord.status
          = some (if isPaid req.body then "paid" else "failed")) ∧
      (∀ (dateParse : String → Option Int) (now : Int) (req : Request CallbackBody)
        (message : String), paidAtOf dateParse req.body = .error message →
        (paymentCallback dateParse now paidStore req).store = paidStore) ∧
      (∀ req : Request StatusBody, (getPaymentStatus paidStore req).store = paidStore) ∧
      (∀ req : Request HistoryBody, (getCustomerPayments paidStore req).store = paidStore) ∧
      (∀ (env : CreateEnv) (req : Request CreateBody),
        (∀ bill : Bill, env.gateway (billDataOf env req.body) = .ok bill →
          docRef bill.id ≠ .ok ["bill_123"]) →
        (createBill env paidStore req).store.get ["bill_123"]
          = some (applyCallback 2000 completedCallback (.date 1704103200000)
              (paymentRecordOf answeringEnv janeBody bill123))) :=
  status_not_back_to_pending paidStore ["bill_123"]
    (applyCallback 2000 completedCallback (.date 1704103200000)
      (paymentRecordOf answeringEnv janeBody bill123))
    (by decide) (by decide)

/-! ## `getCustomerPayments` -/

/-- C7: for every store, every customerEmail and every limit (10 when the request has none),
`getCustomerPayments` returns at most `limit` records, each of them a record of the store
with exactly that customerEmail, in descending order of `createdAt`; the store is left as it
was. -/
theorem getCustomerPayments_bounded_sorted (store : Store) (req : Request HistoryBody)
    (hm : req.method = "POST") (he : truthy req.body.customerEmail = true) :
    ∃ ps : List (DocPath × PaymentRecord),
      (getCustomerPayments store req).response.body = .payments ps ∧
      (getCustomerPayments store req).response.status = 200 ∧
      ps.length ≤ req.body.limit.getD 10 ∧
      (∀ e ∈ ps, e.2.customerEmail = req.body.customerEmail) ∧
      (∀ e ∈ ps, e ∈ store) ∧
      ps.Pairwise (fun a b => b.2.createdAt ≤ a.2.createdAt) ∧
      (getCustomerPayments store req).store = store := by
  have hOut : getCustomerPayments store req
      = ⟨success (.payments (store.query req.body.customerEmail (req.body.limit.getD 10))),
          store, []⟩ := by
    unfold getCustomerPayments
    rw [if_neg (by rw [hm]; decide), if_neg (by rw [hm]; decide)]
    simp only [he, Bool.not_true, Bool.false_eq_true, if_false]
  have hmem : ∀ e ∈ store.query req.body.customerEmail (req.body.limit.getD 10),
      e ∈ store.filter (fun e => decide (e.1.length = 1)
        && decide (e.2.customerEmail = req.body.customerEmail)) := by
    intro e h
    exact (List.mem_insertionSort _).1 (List.mem_of_mem_take h)
  haveI : IsTotal (DocPath × PaymentRecord) (fun a b => b.2.createdAt ≤ a.2.createdAt) :=
    ⟨fun a b => le_total b.2.createdAt a.2.createdAt⟩
  haveI : IsTrans (DocPath × PaymentRecord) (fun a b => b.2.createdAt ≤ a.2.createdAt) :=
    ⟨fun _ _ _ hab hbc => le_trans hbc hab⟩
  refine ⟨store.query req.body.customerEmail (req.body.limit.getD 10), ?_⟩
  rw [hOut]
  refine ⟨rfl, rfl, List.length_take_le _ _, ?_, ?_, ?_, rfl⟩
  · intro e h
    have := (List.mem_filter.1 (hmem e h)).2
    simp only [Bool.and_eq_true, decide_eq_true_eq] at this
    exact this.2
  · intro e h
    exact (List.mem_filter.1 (hmem e h)).1
  · have hsorted : List.Sorted
        (fun a b : DocPath × PaymentRecord => b.2.createdAt ≤ a.2.createdAt)
        ((store.filter (fun e => decide (e.1.length = 1)
          && decide (e.2.customerEmail = req.body.customerEmail))).insertionSort
          (fun a b => b.2.createdAt ≤ a.2.createdAt)) :=
      List.sorted_insertionSort _ _
    exact List.Pairwise.sublist (List.take_sublist _ _) hsorted

/-- Witness for C7: the example customer's history over a store of two records. -/
theorem getCustomerPayments_bounded_sorted_witness :
    ∃ ps : List (DocPath × PaymentRecord),
      (getCustomerPayments twoRecordStore (postOf janeHistory)).response.body = .payments ps ∧
      (getCustomerPayments twoRecordStore (postOf janeHistory)).response.status = 200 ∧
      ps.length ≤ (postOf janeHistory).body.limit.getD 10 ∧
      (∀ e ∈ ps, e.2.customerEmail = (postOf janeHistory).body.customerEmail) ∧
      (∀ e ∈ ps, e ∈ twoRecordStore) ∧
      ps.Pairwise (fun a b => b.2.createdAt ≤ a.2.createdAt) ∧
      (getCustomerPayments twoRecordStore (postOf janeHistory)).store = twoRecordStore :=
  getCustomerPayments_bounded_sorted twoRecordStore (postOf janeHistory) rfl (by decide)

/-! ## Validation failures -/

/-- C8, as stated, fails: a create request with no field at all is a validation failure, and
it is answered with status 500, which is no 4xx status. -/
theorem validation_failure_not_4xx :
    truthy (postOf emptyCreateBody).body.amount = false ∧
      (createBill answeringEnv [] (postOf emptyCreateBody)).response.status = 500 ∧
      ¬ (400 ≤ (createBill answeringEnv [] (postOf emptyCreateBody)).response.status ∧
        (createBill answeringEnv [] (postOf emptyCreateBody)).response.status < 500) := by
  decide

/-- C8, amended: every validation failure (a required create field missing in `createBill`,
`billplzid` missing in `paymentCallback`, `billId` missing in `getPaymentStatus`,
`customerEmail` missing in `getCustomerPayments`) is answered with HTTP status 500 and the
body `{success: false, error}`, the error being the handler's prefix and the message. -/
theorem validation_failures_are_500 :
    (∀ (env : CreateEnv) (store : Store) (req : Request CreateBody),
        req.method = "POST" →
        (truthy req.body.amount = false ∨ truthy req.body.description = false ∨
          truthy req.body.customerName = false ∨ truthy req.body.customerEmail = false) →
        (createBill env store req).response.status = 500 ∧
        (createBill env store req).response.body
          = .failure ("Failed to create bill: " ++ missingRequiredFields)) ∧
      (∀ (dateParse : String → Option Int) (now : Int) (store : Store)
        (req : Request CallbackBody),
        req.method = "POST" → truthy req.body.billplzid = false →
        (paymentCallback dateParse now store req).response.status = 500 ∧
        (paymentCallback dateParse now store req).response.body
          = .failure ("Payment callback failed: " ++ "Missing billplzid")) ∧
      (∀ (store : Store) (req : Request StatusBody),
        req.method = "POST" → truthy req.body.billId = false →
        (getPaymentStatus store req).response.status = 500 ∧
        (getPaymentStatus store req).response.body
          = .failure ("Failed to get payment status: " ++ "Missing billId")) ∧
      (∀ (store : Store) (req : Request HistoryBody),
        req.method = "POST" → truthy req.body.customerEmail = false →
        (getCustomerPayments store req).response.status = 500 ∧
        (getCustomerPayments store req).response.body
          = .failure ("Failed to get customer payments: " ++ "Missing customerEmail")) := by
  refine ⟨?_, ?_, ?_, ?_⟩
  · intro env store req hm h
    rw [createBill_invalid env store req hm h]
    exact ⟨rfl, rfl⟩
  · intro dateParse now store req hm h
    unfold paymentCallback
    rw [if_neg (by rw [hm]; decide), if_neg (by rw [hm]; decide)]
    simp only [h, Bool.not_false, if_true]
    exact ⟨rfl, rfl⟩
  · intro store req hm h
    unfold getPaymentStatus
    rw [if_neg (by rw [hm]; decide), if_neg (by rw [hm]; decide)]
    simp only [h, Bool.not_false, if_true]
    exact ⟨rfl, rfl⟩
  · intro store req hm h
    unfold getCustomerPayments
    rw [if_neg (by rw [hm]; decide), if_neg (by rw [hm]; decide)]
    simp only [h, Bool.not_false, if_true]
    exact ⟨rfl, rfl⟩

/-- Witness for C8 amended: the four handlers on `POST` requests whose required field is
missing. -/
theorem validation_failures_are_500_witness :
    ((createBill answeringEnv [] (postOf emptyCreateBody)).response.status = 500 ∧
        (createBill answeringEnv [] (postOf emptyCreateBody)).response.body
          = .failure ("Failed to create bill: " ++ missingRequiredFields)) ∧
      ((paymentCallback sampleDateParse 2000 janeStore
          (postOf { completedCallback with billplzid := .undefined })).response.status = 500 ∧
        (paymentCallback sampleDateParse 2000 janeStore
          (postOf { completedCallback with billplzid := .undefined })).response.body
          = .failure ("Payment callback failed: " ++ "Missing billplzid")) ∧
      ((getPaymentStatus janeStore (postOf { billId := .str "" })).response.status = 500 ∧
        (getPaymentStatus janeStore (postOf { billId := .str "" })).response.body
          = .failure ("Failed to get payment status: " ++ "Missing billId")) ∧
      ((getCustomerPayments janeStore
          (postOf { janeHistory with customerEmail := .null })).response.status = 500 ∧
        (getCustomerPayments janeStore
          (postOf { janeHistory with customerEmail := .null })).response.body
          = .failure ("Failed to get customer payments: " ++ "Missing customerEmail")) :=
  ⟨validation_failures_are_500.1 answeringEnv [] (postOf emptyCreateBody) rfl (Or.inl rfl),
    validation_failures_are_500.2.1 sampleDateParse 2000 janeStore
      (postOf { completedCallback with billplzid := .undefined }) rfl rfl,
    validation_failures_are_500.2.2.1 janeStore (postOf { billId := .str "" }) rfl rfl,
    validation_failures_are_500.2.2.2 janeStore
      (postOf { janeHistory with customerEmail := .null }) rfl rfl⟩

/-! ## The amount sent to the gateway -/

/-- C10, as stated, fails: for the amount that is the double nearest to 1.045 the double
product with 100 is 104.5, so 105 is sent to the gateway, and 105 is further than 1/2 from
100 times the amount. -/
theorem createBill_amount_not_nearest_cent :
    IsDouble (588282701325271 / 562949953421312) ∧
      (createBill answeringEnv [] (postOf halfCentBody)).gatewayCalls.map BillData.amount
        = [.finite 105] ∧
      ¬ (|(105 : ℚ) - 100 * (588282701325271 / 562949953421312)| ≤ 1 / 2) := by
  refine ⟨by decide!, by decide!, ?_⟩
  norm_num [abs_le]

/-- C10, amended: for a valid create request whose amount times 100, computed in double
precision, is the finite number `p`, the one bill request sent to the gateway carries the
integer `n` that is `p` rounded to the nearest integer, ties upwards, so `|n - p| ≤ 1/2`;
for an amount that is a number `a`, `p` is the binary64 rounding of `100 * a`, and `n` is
within `1/2 + 2 ^ (-53) * |100 * a|` of `100 * a` when `2 ^ (-1022) ≤ |100 * a|`; and the
record stored when the store client takes the gateway's bill (its id a document path, its
url not `undefined`) keeps the amount as it came. -/
theorem createBill_amount_rounded (env : CreateEnv) (store : Store) (req : Request CreateBody)
    (p : ℚ) (hm : req.method = "POST")
    (ha : truthy req.body.amount = true) (hd : truthy req.body.description = true)
    (hn : truthy req.body.customerName = true) (he : truthy req.body.customerEmail = true)
    (hp : jsMul (toNumber env.stringToNumber req.body.amount) (.finite 100) = .finite p) :
    ∃ n : ℤ,
      (createBill env store req).gatewayCalls.map BillData.amount = [.finite n] ∧
      n = ⌊p + 1 / 2⌋ ∧ |(n : ℚ) - p| ≤ 1 / 2 ∧
      (∀ a : ℚ, req.body.amount = .num (.finite a) → roundToDouble (a * 100) = .finite p) ∧
      (∀ a : ℚ, req.body.amount = .num (.finite a) → (2 : ℚ) ^ (-1022 : ℤ) ≤ |100 * a| →
        |(n : ℚ) - 100 * a| ≤ 1 / 2 + (2 : ℚ) ^ (-53 : ℤ) * |100 * a|) ∧
      (∀ (bill : Bill) (path : DocPath), env.gateway (billDataOf env req.body) = .ok bill →
        docRef bill.id = .ok path → bill.url ≠ .undefined →
        ((createBill env store req).store.get path).map PaymentRecord.amount
          = some req.body.amount) := by
  have hfloor : |((⌊p + 1 / 2⌋ : ℤ) : ℚ) - p| ≤ 1 / 2 := by
    have h1 : ((⌊p + 1 / 2⌋ : ℤ) : ℚ) ≤ p + 1 / 2 := Int.floor_le _
    have h2 : p + 1 / 2 < ((⌊p + 1 / 2⌋ : ℤ) : ℚ) + 1 := Int.lt_floor_add_one _
    rw [abs_le]
    constructor <;> linarith
  refine ⟨⌊p + 1 / 2⌋, ?_, rfl, hfloor, ?_, ?_, ?_⟩
  · have hcalls : (createBill env store req).gatewayCalls = [billDataOf env req.body] := by
      rw [createBill_valid env store req hm ha hd hn he]
      cases env.gateway (billDataOf env req.body) with
      | error message => rfl
      | ok bill =>
        show (storeBill _ _ _ _).gatewayCalls = _
        unfold storeBill
        cases docRef bill.id with
        | error message => rfl
        | ok path =>
          cases setError (paymentRecordOf env req.body bill) <;> rfl
    rw [hcalls]
    show [mathRound (jsMul (toNumber env.stringToNumber req.body.amount) (.finite 100))] = _
    rw [hp]; rfl
  · intro a hamt
    rw [hamt] at hp
    exact hp
  · intro a hamt hnormal
    rw [hamt] at hp
    have hp' : roundToDouble (100 * a) = .finite p := by rw [mul_comm]; exact hp
    have herr := roundToDouble_error (100 * a) p hp' hnormal
    calc |((⌊p + 1 / 2⌋ : ℤ) : ℚ) - 100 * a|
        ≤ |((⌊p + 1 / 2⌋ : ℤ) : ℚ) - p| + |p - 100 * a| := abs_sub_le _ _ _
      _ ≤ 1 / 2 + (2 : ℚ) ^ (-53 : ℤ) * |100 * a| := add_le_add hfloor herr
  · intro bill path hg hdoc hu
    rw [createBill_stored env store req bill path hm ha hd hn he hg hdoc hu]
    show ((Store.set store path _).get path).map _ = _
    rw [Store.get_set_self]; rfl

/-- Witness for C10 amended: the specification's example, amount 50.00, sends 5000. -/
theorem createBill_amount_rounded_witness :
    ∃ n : ℤ,
      (createBill answeringEnv [] (postOf janeBody)).gatewayCalls.map BillData.amount
        = [.finite n] ∧
      n = ⌊(5000 : ℚ) + 1 / 2⌋ ∧ |(n : ℚ) - 5000| ≤ 1 / 2 ∧
      (∀ a : ℚ, (postOf janeBody).body.amount = .num (.finite a) →
        roundToDouble (a * 100) = .finite 5000) ∧
      (∀ a : ℚ, (postOf janeBody).body.amount = .num (.finite a) →
        (2 : ℚ) ^ (-1022 : ℤ) ≤ |100 * a| →
        |(n : ℚ) - 100 * a| ≤ 1 / 2 + (2 : ℚ) ^ (-53 : ℤ) * |100 * a|) ∧
      (∀ (bill : Bill) (path : DocPath),
        answeringEnv.gateway (billDataOf answeringEnv (postOf janeBody).body) = .ok bill →
        docRef bill.id = .ok path → bill.url ≠ .undefined →
        ((createBill answeringEnv [] (postOf janeBody)).store.get path).map
          PaymentRecord.amount = some (postOf janeBody).body.amount) :=
  createBill_amount_rounded answeringEnv [] (postOf janeBody) 5000 rfl
    (by decide) (by decide) (by decide) (by decide) (by decide!)

end Wms
